import Mathlib

/-!
# Inventory web handlers for vSphere clusters, and the image customization arguments

A shallow embedding of `pkg/controller/provider/web/vsphere/cluster.go`
(the `ClusterHandler` with its `List`, `Get`, `watch` and `filter` methods and
the REST `Cluster` resource) and of `getScriptArgs` from
`virt-v2v/cold/customize-image.go`.

The handler talks to collaborators whose code lives in other packages
(`Handler.Prepare`, `Handler.ListOptions`, `Handler.PathMatchRoot`,
`Handler.Watch`, `PathBuilder.Path`, `base.Link`, `Resource.With`, the
store behind `Collector.DB()`).  They are parameters of the embedding: the
store is a record of functions carried by the handler, the others are the
fields of `Env`.  Calls on the `gin.Context` and on the store are recorded in
a `Trace`, in the order in which the handler makes them.
-/

/-! ## Go library types -/

/-- A Go `error` value that is not nil: the chain obtained by unwrapping it,
outermost first, each link identified by its sentinel name. -/
structure GoError where
  chain : List String
  deriving DecidableEq, Repr

/-- Go `errors.Is(err, target)` for a sentinel target: some link of the
chain of `err` is the target. -/
def errorsIs (err : GoError) (target : String) : Bool :=
  err.chain.contains target

/-- Go `strings.Split(s, sep)` for a separator of one character, on the
characters of `s`: the pieces between the separators, `cur` being the piece
read so far. -/
def splitChars (sep : Char) : List Char → List Char → List (List Char)
  | cur, [] => [cur]
  | cur, c :: cs =>
    if c = sep then cur :: splitChars sep [] cs
    else splitChars sep (cur ++ [c]) cs

/-- Go `strings.Split(s, "/")`. -/
def stringsSplit (s : String) (sep : Char) : List String :=
  (splitChars sep [] s.toList).map String.mk

/-- Go `url.Values`: the parsed query, each key with its values. -/
abbrev Values := List (String × List String)

/-- Go `url.Values.Get`: the first value of the key, `""` without one. -/
def Values.Get (v : Values) (key : String) : String :=
  match v.lookup key with
  | some (x :: _) => x
  | _ => ""

/-- The parts of a `gin.Context` the handler reads: the parsed query of the
request URL and the route parameters. -/
structure Context where
  Query : Values
  Params : List (String × String)
  deriving DecidableEq, Repr

/-- Go `gin.Context.Param`: the value of the first route parameter of that
name, `""` without one. -/
def Context.Param (ctx : Context) (key : String) : String :=
  (ctx.Params.lookup key).getD ""

/-- Go `http.StatusOK`. -/
def StatusOK : Int := 200

/-- Go `http.StatusNotFound`. -/
def StatusNotFound : Int := 404

/-- Go `http.StatusInternalServerError`. -/
def StatusInternalServerError : Int := 500

/-! ## The model package -/

/-- The value compared by a predicate (a Go `interface{}`). -/
inductive Value where
  | str (s : String)
  | int (i : Int)
  | bool (b : Bool)
  deriving DecidableEq, Repr

/-- The predicates of `libmodel`: comparisons of a field with a value, and
the variadic `And` and `Or`. -/
inductive Predicate where
  | Eq (field : String) (value : Value)
  | Neq (field : String) (value : Value)
  | Gt (field : String) (value : Value)
  | Lt (field : String) (value : Value)
  | And (predicates : List Predicate)
  | Or (predicates : List Predicate)
  deriving Repr

/-- The `libmodel.ListOptions` handed to the store. -/
structure ListOptions where
  Predicate : Option Predicate
  Detail : Int
  deriving Repr

/-- Modelled from the spec: `model.Ref`, a reference to another entity by
kind and ID (its declaration is in the model package). -/
structure model.Ref where
  Kind : String
  ID : String
  deriving DecidableEq, Repr

/-- Modelled from the spec: `model.Base`, the fields every entity has: a
stable ID, the variant discriminator and a name (its declaration is in the
model package). -/
structure model.Base where
  ID : String
  Variant : String
  Name : String
  deriving DecidableEq, Repr

/-- Modelled from the spec: `model.Cluster`, the stored cluster: the base
and the fields `Cluster.With` reads (its declaration is in the model
package). -/
structure model.Cluster where
  Base : model.Base
  Folder : String
  Networks : List model.Ref
  Datastores : List model.Ref
  Hosts : List model.Ref
  DasEnabled : Bool
  DasVms : List model.Ref
  DrsEnabled : Bool
  DrsBehavior : String
  DrsVms : List model.Ref
  deriving DecidableEq, Repr

/-- The Go composite literal `model.Cluster{Base: model.Base{ID: id}}`:
every other field has its zero value. -/
def model.Cluster.withID (id : String) : model.Cluster :=
  { Base := { ID := id, Variant := "", Name := "" },
    Folder := "", Networks := [], Datastores := [], Hosts := [],
    DasEnabled := false, DasVms := [], DrsEnabled := false,
    DrsBehavior := "", DrsVms := [] }

/-- The Go composite literal `model.Cluster{}`. -/
def model.Cluster.zero : model.Cluster := model.Cluster.withID ""

/-- The store reached through `h.Collector.DB()`: `Get` fills the model
whose ID is set or fails, `List` returns the models selected by the options
or fails. -/
structure DB where
  Get : model.Cluster → Except GoError model.Cluster
  List : ListOptions → Except GoError (List model.Cluster)

/-- The `api.Provider` of the handler, of which the handler reads the UID. -/
structure api.Provider where
  UID : String
  deriving DecidableEq, Repr

/-! ## The web package -/

/-- Modelled from the spec: the base REST `Resource` embedded in every
resource: the identity fields, the path and the self link (its declaration
is in `resource.go` of the same package). -/
structure Resource where
  ID : String
  Variant : String
  Name : String
  Path : String
  SelfLink : String
  deriving DecidableEq, Repr

/-- The Go zero value `Resource{}`. -/
def Resource.zero : Resource :=
  { ID := "", Variant := "", Name := "", Path := "", SelfLink := "" }

/-- REST Resource: `type Cluster struct`. -/
structure Cluster where
  Resource : Resource
  Folder : String
  Networks : List model.Ref
  Datastores : List model.Ref
  Hosts : List model.Ref
  DasEnabled : Bool
  DasVms : List model.Ref
  DrsEnabled : Bool
  DrsBehavior : String
  DrsVms : List model.Ref
  deriving DecidableEq, Repr

/-- The Go zero value `Cluster{}`. -/
def Cluster.zero : Cluster :=
  { Resource := Resource.zero,
    Folder := "", Networks := [], Datastores := [], Hosts := [],
    DasEnabled := false, DasVms := [], DrsEnabled := false,
    DrsBehavior := "", DrsVms := [] }

/-- What `Cluster.Content` returns as `interface{}`: the embedded
`Resource` alone, or the whole cluster resource. -/
inductive Content where
  | resource (r : Resource)
  | cluster (r : Cluster)
  deriving DecidableEq, Repr

/-- The embedded `Handler` with the `cluster` field of `ClusterHandler`:
the provider, the store of the collector (`h.Collector.DB()`), and the watch
flag and detail level that `Prepare` reads from the request. -/
structure ClusterHandler where
  Provider : api.Provider
  Collector : DB
  WatchRequest : Bool
  Detail : Int
  cluster : Option model.Cluster

/-- The object handed to `ctx.JSON`: the slice of contents that `List`
builds, or the single content of `Get`. -/
inductive Body where
  | many (content : List Content)
  | one (content : Content)
  deriving DecidableEq, Repr

/-- One call on the `gin.Context` that writes the response: `ctx.Status`
writes a status without a body, `ctx.JSON` a status and the object. -/
inductive CtxCall where
  | Status (code : Int)
  | JSON (code : Int) (obj : Body)
  deriving DecidableEq, Repr

/-- One call on the store. -/
inductive DbCall where
  | List (options : ListOptions)
  | Get (m : model.Cluster)
  deriving Repr

/-- The arguments of one call of `Handler.Watch` after the context and the
store: the model that names the watched collection and the builder applied
to the model of each event (`nil` is `none`). -/
structure WatchCall where
  m : model.Cluster
  builder : model.Cluster → Option Cluster

/-- What a handler did: its calls on the context, on the store and on
`Handler.Watch`, each in order. -/
structure Trace where
  ctx : List CtxCall
  db : List DbCall
  watch : List WatchCall

/-- The collaborators and constants declared outside `cluster.go`. -/
structure Env where
  /-- The constant `ProviderRoot`, the route of a provider. -/
  ProviderRoot : String
  /-- The constant `base.ProviderParam`. -/
  ProviderParam : String
  /-- The constant `NameParam`, the name of the query parameter `filter` reads. -/
  NameParam : String
  /-- The constant `model.MaxDetail`. -/
  MaxDetail : Int
  /-- The function `Handler.Prepare`: the status and the handler as prepared. -/
  Prepare : ClusterHandler → Context → Int × ClusterHandler
  /-- The function `Handler.ListOptions`. -/
  ListOptions : ClusterHandler → Context → ListOptions
  /-- The function `Handler.PathMatchRoot`. -/
  PathMatchRoot : ClusterHandler → String → String → Bool
  /-- The function `PathBuilder{DB: db}.Path`. -/
  Path : DB → model.Cluster → String
  /-- The function `base.Link`: the route with the parameters bound. -/
  Link : String → List (String × String) → String
  /-- The function `Resource.With`: the resource after it is built from the base. -/
  ResourceWith : Resource → model.Base → Resource
  /-- The function `Handler.Watch`: the error it returns, if any. -/
  Watch : ClusterHandler → Context → DB → WatchCall → Option GoError

/-! ## Routes -/

/-- The name of the route parameter of a cluster. -/
def ClusterParam : String := "cluster"

/-- The name of the collection. -/
def ClusterCollection : String := "clusters"

/-- The route of the collection. -/
def ClustersRoot (env : Env) : String := env.ProviderRoot ++ "/" ++ ClusterCollection

/-- The route of one cluster, the template of its self link. -/
def ClusterRoot (env : Env) : String := ClustersRoot env ++ "/:" ++ ClusterParam

/-! ## The REST resource -/

/-- Build the resource using the model: `func (r *Cluster) With`. -/
def Cluster.With (env : Env) (r : Cluster) (m : model.Cluster) : Cluster :=
  let r := { r with Resource := env.ResourceWith r.Resource m.Base }
  let r := { r with Folder := m.Folder }
  let r := { r with DasEnabled := m.DasEnabled }
  let r := { r with DrsEnabled := m.DrsEnabled }
  let r := { r with DrsBehavior := m.DrsBehavior }
  let r := { r with Networks := m.Networks }
  let r := { r with Datastores := m.Datastores }
  let r := { r with Hosts := m.Hosts }
  let r := { r with DasVms := m.DasVms }
  let r := { r with DrsVms := m.DasVms }
  r

/-- Build self link (URI): `func (r *Cluster) Link`. -/
def Cluster.Link (env : Env) (r : Cluster) (p : api.Provider) : Cluster :=
  { r with Resource := { r.Resource with
      SelfLink := env.Link (ClusterRoot env)
        [(env.ProviderParam, p.UID), (ClusterParam, r.Resource.ID)] } }

/-- As content: `func (r *Cluster) Content`. -/
def Cluster.Content (r : Cluster) (detail : Int) : Content :=
  if detail = 0 then Content.resource r.Resource
  else Content.cluster r

/-! ## The handler -/

/-- The sentinel `model.NotFound`. -/
def model.NotFound : String := "not found"

/-- Filter result set, by path for the name query:
`func (h *ClusterHandler) filter`.  The list after the call and the error
returned. -/
def ClusterHandler.filter (env : Env) (h : ClusterHandler) (ctx : Context)
    (list : List model.Cluster) : List model.Cluster × Option GoError :=
  if list.length < 2 then (list, none)
  else
    let q := ctx.Query
    let name := q.Get env.NameParam
    if name.utf8ByteSize = 0 then (list, none)
    else if (stringsSplit name '/').length < 2 then (list, none)
    else
      let db := h.Collector
      let kept := list.foldl
        (fun kept m =>
          let path := env.Path db m
          if env.PathMatchRoot h path name then kept ++ [m] else kept)
        []
      (kept, none)

/-- Watch: `func (h *ClusterHandler) watch`. -/
def ClusterHandler.watch (env : Env) (h : ClusterHandler) (ctx : Context) : Trace :=
  let db := h.Collector
  let call : WatchCall :=
    { m := model.Cluster.zero,
      builder := fun m =>
        let cluster := Cluster.zero
        let cluster := Cluster.With env cluster m
        let cluster := Cluster.Link env cluster h.Provider
        let cluster := { cluster with
          Resource := { cluster.Resource with Path := env.Path db m } }
        some cluster }
  match env.Watch h ctx db call with
  | some _ => { ctx := [CtxCall.Status StatusInternalServerError], db := [], watch := [call] }
  | none => { ctx := [], db := [], watch := [call] }

/-- Get a specific REST resource: `func (h ClusterHandler) Get`. -/
def ClusterHandler.Get (env : Env) (h : ClusterHandler) (ctx : Context) : Trace :=
  let (status, h) := env.Prepare h ctx
  if status ≠ StatusOK then
    { ctx := [CtxCall.Status status], db := [], watch := [] }
  else
    let m := model.Cluster.withID (ctx.Param ClusterParam)
    let db := h.Collector
    match db.Get m with
    | Except.error err =>
      if errorsIs err model.NotFound then
        { ctx := [CtxCall.Status StatusNotFound], db := [DbCall.Get m], watch := [] }
      else
        { ctx := [CtxCall.Status StatusInternalServerError], db := [DbCall.Get m],
          watch := [] }
    | Except.ok found =>
      let r := Cluster.zero
      let r := Cluster.With env r found
      let r := Cluster.Link env r h.Provider
      let r := { r with Resource := { r.Resource with Path := env.Path db found } }
      let content := r.Content env.MaxDetail
      { ctx := [CtxCall.JSON StatusOK (Body.one content)], db := [DbCall.Get m],
        watch := [] }

/-- List resources in a REST collection: `func (h ClusterHandler) List`.
The deferred function writes status 500 when `err` is set at return. -/
def ClusterHandler.List (env : Env) (h : ClusterHandler) (ctx : Context) : Trace :=
  let (status, h) := env.Prepare h ctx
  if status ≠ StatusOK then
    { ctx := [CtxCall.Status status], db := [], watch := [] }
  else if h.WatchRequest then
    ClusterHandler.watch env h ctx
  else
    let db := h.Collector
    let options := env.ListOptions h ctx
    let realCluster := Predicate.Eq "variant" (Value.str "")
    let options :=
      match options.Predicate with
      | some p => { options with Predicate := some (Predicate.And [p, realCluster]) }
      | none => { options with Predicate := some realCluster }
    match db.List options with
    | Except.error _ =>
      { ctx := [CtxCall.Status StatusInternalServerError], db := [DbCall.List options],
        watch := [] }
    | Except.ok list =>
      match ClusterHandler.filter env h ctx list with
      | (_, some _) =>
        { ctx := [CtxCall.Status StatusInternalServerError], db := [DbCall.List options],
          watch := [] }
      | (list, none) =>
        let content := list.foldl
          (fun content m =>
            let r := Cluster.zero
            let r := Cluster.With env r m
            let r := Cluster.Link env r h.Provider
            let r := { r with Resource := { r.Resource with Path := env.Path db m } }
            content ++ [r.Content h.Detail])
          []
        { ctx := [CtxCall.JSON StatusOK (Body.many content)], db := [DbCall.List options],
          watch := [] }

/-! ## Image customization -/

/-- Generates a list of arguments: `func getScriptArgs`, with
`fmt.Sprintf("--%s", argName)` the concatenation of `"--"` and the name. -/
def getScriptArgs (argName : String) (values : List String) : List String :=
  values.foldl (fun args val => args ++ ["--" ++ argName, val]) []

/-! ## Reference definitions and sample data -/

/-- The reference definition of structural filtering, in the words of the
specification: the list is returned unchanged when it has fewer than 2
elements, or the name parameter is empty, or the name split on `"/"` has
fewer than 2 segments; otherwise the elements whose path matches the name
at the root are kept, in their order. -/
def filterSpec (env : Env) (h : ClusterHandler) (ctx : Context)
    (list : List model.Cluster) : List model.Cluster :=
  if list.length < 2 ∨ ctx.Query.Get env.NameParam = ""
      ∨ (stringsSplit (ctx.Query.Get env.NameParam) '/').length < 2 then list
  else list.filter
    (fun m => env.PathMatchRoot h (env.Path h.Collector m) (ctx.Query.Get env.NameParam))

/-- The resource the handler builds for a model `m` read from the store
`db`: `With` on a fresh `Cluster`, then `Link` with the provider `p` of the
handler, then the path. -/
def resourceOf (env : Env) (p : api.Provider) (db : DB) (m : model.Cluster) : Cluster :=
  let r := Cluster.Link env (Cluster.With env Cluster.zero m) p
  { r with Resource := { r.Resource with Path := env.Path db m } }

/-- The arguments of `Watch` in terms of `resourceOf`: the empty model and
a builder that produces the resource of every model. -/
def watchCallOf (env : Env) (h : ClusterHandler) : WatchCall :=
  { m := model.Cluster.zero,
    builder := fun m => some (resourceOf env h.Provider h.Collector m) }

/-- The options `List` hands to the store, given those of the caller, in
the words of the specification: the conjunction of the predicate of the
caller with the baseline `variant == ""`, or the baseline alone. -/
def baselineOptions (options : ListOptions) : ListOptions :=
  { options with
    Predicate :=
      match options.Predicate with
      | some p => some (Predicate.And [p, Predicate.Eq "variant" (Value.str "")])
      | none => some (Predicate.Eq "variant" (Value.str "")) }

/-- A sample cluster `prod` of the given ID in the given folder. -/
def sampleCluster (id folder : String) : model.Cluster :=
  { model.Cluster.withID id with
    Base := { ID := id, Variant := "", Name := "prod" }, Folder := folder }

/-- A sample store: the clusters `1` in `dc1` and `2` in `dc2`; `Get` of
another ID is not found, and `List` fails when asked for detail 99. -/
def sampleDB : DB :=
  { Get := fun m =>
      if m.Base.ID = "1" then Except.ok (sampleCluster "1" "dc1")
      else if m.Base.ID = "2" then Except.ok (sampleCluster "2" "dc2")
      else if m.Base.ID = "broken" then Except.error { chain := ["connection lost"] }
      else Except.error { chain := ["get failed", model.NotFound] },
    List := fun options =>
      if options.Detail = 99 then Except.error { chain := ["connection lost"] }
      else Except.ok [sampleCluster "1" "dc1", sampleCluster "2" "dc2"] }

/-- A sample handler on the sample store. -/
def sampleHandler : ClusterHandler :=
  { Provider := { UID := "uid-1" }, Collector := sampleDB, WatchRequest := false,
    Detail := 0, cluster := none }

/-- Sample collaborators: `Prepare` accepts every request and sets the watch
flag from the `watch` route parameter, the path of a cluster is its folder
and name, and two paths match when they are equal. -/
def sampleEnv : Env :=
  { ProviderRoot := "/providers/vsphere/:provider",
    ProviderParam := "provider",
    NameParam := "name",
    MaxDetail := 10,
    Prepare := fun h ctx => (StatusOK, { h with WatchRequest := ctx.Param "watch" == "1" }),
    ListOptions := fun h _ => { Predicate := none, Detail := h.Detail },
    PathMatchRoot := fun _ path name => path == name,
    Path := fun _ m => m.Folder ++ "/" ++ m.Base.Name,
    Link := fun route params =>
      route ++ "?" ++ String.intercalate "&" (params.map (fun kv => kv.1 ++ "=" ++ kv.2)),
    ResourceWith := fun r b => { r with ID := b.ID, Variant := b.Variant, Name := b.Name },
    Watch := fun _ _ _ _ => none }

/-- A sample request: `GET .../clusters/1?name=dc1/prod`. -/
def sampleCtx : Context :=
  { Query := [("name", ["dc1/prod"])], Params := [("provider", "uid-1"), ("cluster", "1")] }

/-- A sample watch request on the collection. -/
def sampleWatchCtx : Context :=
  { Query := [], Params := [("provider", "uid-1"), ("watch", "1")] }

/-- A model whose `DasVms` and `DrsVms` differ. -/
def drsCluster : model.Cluster :=
  { sampleCluster "1" "dc1" with
    DasVms := [], DrsVms := [{ Kind := "VM", ID := "vm-7" }] }

/-- A model of the variant `ComputeResource`. -/
def variantCluster : model.Cluster :=
  { sampleCluster "3" "dc1" with
    Base := { ID := "3", Variant := "ComputeResource", Name := "host3" } }

/-! ## Lemmas on the loops -/

theorem foldl_keep_eq_filter {α : Type} (p : α → Bool) (l acc : List α) :
    l.foldl (fun kept m => if p m then kept ++ [m] else kept) acc = acc ++ l.filter p := by
  induction l generalizing acc with
  | nil => simp
  | cons x xs ih =>
    by_cases hx : p x <;> simp [List.foldl_cons, ih, hx]

theorem foldl_append_eq_map {α β : Type} (f : α → β) (l : List α) (acc : List β) :
    l.foldl (fun content m => content ++ [f m]) acc = acc ++ l.map f := by
  induction l generalizing acc with
  | nil => simp
  | cons x xs ih => simp [List.foldl_cons, ih]

theorem utf8ByteSize_go_pos (c : Char) (cs : List Char) :
    0 < String.utf8ByteSize.go (c :: cs) := by
  have := Char.utf8Size_pos c
  simp only [String.utf8ByteSize.go]
  omega

theorem utf8ByteSize_eq_zero_iff (s : String) : s.utf8ByteSize = 0 ↔ s = "" := by
  cases s with
  | mk data =>
    cases data with
    | nil => simp [String.utf8ByteSize, String.utf8ByteSize.go]
    | cons c cs =>
      have hpos := utf8ByteSize_go_pos c cs
      constructor
      · intro h0
        simp only [String.utf8ByteSize] at h0
        omega
      · intro h0
        exact absurd (congrArg String.data h0) (by simp)

/-- The embedding of `filter` agrees with the reference definition, and
never returns an error. -/
theorem filter_eq_filterSpec (env : Env) (h : ClusterHandler) (ctx : Context)
    (list : List model.Cluster) :
    ClusterHandler.filter env h ctx list = (filterSpec env h ctx list, none) := by
  unfold ClusterHandler.filter filterSpec
  by_cases h1 : list.length < 2
  · simp [h1]
  · by_cases h2 : ctx.Query.Get env.NameParam = ""
    · simp [h1, h2, String.utf8ByteSize, String.utf8ByteSize.go]
    · have h2b : ¬ (ctx.Query.Get env.NameParam).utf8ByteSize = 0 := by
        rw [utf8ByteSize_eq_zero_iff]; exact h2
      by_cases h3 : (stringsSplit (ctx.Query.Get env.NameParam) '/').length < 2
      · simp [h1, h2b, h3]
      · simp only [h1, h2, h2b, h3, if_false, or_self]
        rw [foldl_keep_eq_filter
          (fun m => env.PathMatchRoot h (env.Path h.Collector m) (ctx.Query.Get env.NameParam))]
        simp

theorem getScriptArgs_foldl (a : String) (vs acc : List String) :
    vs.foldl (fun args val => args ++ ["--" ++ a, val]) acc = acc ++ getScriptArgs a vs := by
  unfold getScriptArgs
  induction vs generalizing acc with
  | nil => simp
  | cons v vs ih =>
    simp only [List.foldl_cons]
    rw [ih, ih ([] ++ ["--" ++ a, v])]
    simp

theorem getScriptArgs_cons (a v : String) (vs : List String) :
    getScriptArgs a (v :: vs) = ("--" ++ a) :: v :: getScriptArgs a vs := by
  have h := getScriptArgs_foldl a vs ([] ++ ["--" ++ a, v])
  simpa [getScriptArgs] using h

/-- The trace of `List` on a prepared request that is not a watch: one query
of the store with the baseline options, then status 500 on an error and
otherwise the contents of the filtered list. -/
theorem List_prepared (env : Env) (h : ClusterHandler) (ctx : Context)
    (hp : (env.Prepare h ctx).1 = StatusOK)
    (hw : (env.Prepare h ctx).2.WatchRequest = false) :
    ClusterHandler.List env h ctx =
      match (env.Prepare h ctx).2.Collector.List
          (baselineOptions (env.ListOptions (env.Prepare h ctx).2 ctx)) with
      | Except.error _ =>
        { ctx := [CtxCall.Status StatusInternalServerError],
          db := [DbCall.List (baselineOptions (env.ListOptions (env.Prepare h ctx).2 ctx))],
          watch := [] }
      | Except.ok list =>
        { ctx := [CtxCall.JSON StatusOK (Body.many
            ((filterSpec env (env.Prepare h ctx).2 ctx list).map
              (fun m => (resourceOf env (env.Prepare h ctx).2.Provider
                (env.Prepare h ctx).2.Collector m).Content (env.Prepare h ctx).2.Detail)))],
          db := [DbCall.List (baselineOptions (env.ListOptions (env.Prepare h ctx).2 ctx))],
          watch := [] } := by
  rcases hprep : env.Prepare h ctx with ⟨s, h1⟩
  rw [hprep] at hp hw
  simp only at hp hw
  subst hp
  have hopt : (match (env.ListOptions h1 ctx).Predicate with
      | some p => { env.ListOptions h1 ctx with
          Predicate := some (Predicate.And [p, Predicate.Eq "variant" (Value.str "")]) }
      | none => { env.ListOptions h1 ctx with
          Predicate := some (Predicate.Eq "variant" (Value.str "")) })
      = baselineOptions (env.ListOptions h1 ctx) := by
    unfold baselineOptions
    cases (env.ListOptions h1 ctx).Predicate <;> rfl
  unfold ClusterHandler.List
  simp only [hprep, hw, ne_eq, not_true_eq_false, if_false, Bool.false_eq_true, hopt]
  cases hl : h1.Collector.List (baselineOptions (env.ListOptions h1 ctx)) with
  | error e => rfl
  | ok list =>
    simp only [filter_eq_filterSpec]
    have hm := foldl_append_eq_map
      (fun m => (resourceOf env h1.Provider h1.Collector m).Content h1.Detail)
      (filterSpec env h1 ctx list) []
    simp only [List.nil_append] at hm
    rw [← hm]
    rfl

/-- The trace of `Get` on a prepared request. -/
theorem Get_prepared (env : Env) (h : ClusterHandler) (ctx : Context)
    (hp : (env.Prepare h ctx).1 = StatusOK) :
    ClusterHandler.Get env h ctx =
      match (env.Prepare h ctx).2.Collector.Get
          (model.Cluster.withID (ctx.Param ClusterParam)) with
      | Except.error err =>
        { ctx := [CtxCall.Status
            (if errorsIs err model.NotFound then StatusNotFound
              else StatusInternalServerError)],
          db := [DbCall.Get (model.Cluster.withID (ctx.Param ClusterParam))],
          watch := [] }
      | Except.ok found =>
        { ctx := [CtxCall.JSON StatusOK (Body.one
            ((resourceOf env (env.Prepare h ctx).2.Provider
              (env.Prepare h ctx).2.Collector found).Content env.MaxDetail))],
          db := [DbCall.Get (model.Cluster.withID (ctx.Param ClusterParam))],
          watch := [] } := by
  rcases hprep : env.Prepare h ctx with ⟨s, h1⟩
  rw [hprep] at hp
  simp only at hp
  subst hp
  unfold ClusterHandler.Get
  simp only [hprep, ne_eq, not_true_eq_false, if_false]
  cases hg : h1.Collector.Get (model.Cluster.withID (ctx.Param ClusterParam)) with
  | error e =>
    by_cases hn : errorsIs e model.NotFound = true <;> simp [hn]
  | ok found => rfl

/-- The trace of `List` on a request that `Prepare` refuses. -/
theorem List_refused (env : Env) (h : ClusterHandler) (ctx : Context)
    (hp : (env.Prepare h ctx).1 ≠ StatusOK) :
    ClusterHandler.List env h ctx =
      { ctx := [CtxCall.Status (env.Prepare h ctx).1], db := [], watch := [] } := by
  rcases hprep : env.Prepare h ctx with ⟨s, h1⟩
  rw [hprep] at hp
  simp only at hp
  unfold ClusterHandler.List
  simp [hprep, hp]

/-- The trace of `watch`: no query of the store, one call of `Watch`, and
status 500 when that call returns an error. -/
theorem watch_trace (env : Env) (h : ClusterHandler) (ctx : Context) :
    ClusterHandler.watch env h ctx =
      { ctx := (match env.Watch h ctx h.Collector (watchCallOf env h) with
          | some _ => [CtxCall.Status StatusInternalServerError]
          | none => []),
        db := [],
        watch := [watchCallOf env h] } := by
  show (match env.Watch h ctx h.Collector (watchCallOf env h) with
    | some _ =>
      (Trace.mk [CtxCall.Status StatusInternalServerError] [] [watchCallOf env h])
    | none => Trace.mk [] [] [watchCallOf env h]) = _
  cases env.Watch h ctx h.Collector (watchCallOf env h) <;> rfl

/-- The trace of `List` on a prepared watch request is that of `watch`. -/
theorem List_watch (env : Env) (h : ClusterHandler) (ctx : Context)
    (hp : (env.Prepare h ctx).1 = StatusOK)
    (hw : (env.Prepare h ctx).2.WatchRequest = true) :
    ClusterHandler.List env h ctx = ClusterHandler.watch env (env.Prepare h ctx).2 ctx := by
  rcases hprep : env.Prepare h ctx with ⟨s, h1⟩
  rw [hprep] at hp hw
  simp only at hp hw
  subst hp
  unfold ClusterHandler.List
  simp [hprep, hw]

/-! ## The claims -/

/-- C1: `ClusterHandler.filter` equals the reference definition for every
list and every request (unchanged when the list has fewer than 2 elements,
or the name parameter is empty or has fewer than 2 segments; otherwise
exactly the elements whose path matches the name at the root, in order),
and for two clusters of paths `dc1/prod` and `dc2/prod` and `name=dc1/prod`,
with a `PathMatchRoot` that accepts the first path and rejects the second,
the result is exactly the first cluster. -/
theorem C1_filter_refines_reference :
    (∀ (env : Env) (h : ClusterHandler) (ctx : Context) (list : List model.Cluster),
      ClusterHandler.filter env h ctx list = (filterSpec env h ctx list, none))
    ∧ (∀ (env : Env) (h : ClusterHandler) (params : List (String × String))
        (c1 c2 : model.Cluster),
        env.NameParam = "name" →
        env.Path h.Collector c1 = "dc1/prod" →
        env.Path h.Collector c2 = "dc2/prod" →
        env.PathMatchRoot h "dc1/prod" "dc1/prod" = true →
        env.PathMatchRoot h "dc2/prod" "dc1/prod" = false →
        ClusterHandler.filter env h { Query := [("name", ["dc1/prod"])], Params := params }
          [c1, c2] = ([c1], none)) := by
  refine ⟨filter_eq_filterSpec, ?_⟩
  intro env h params c1 c2 hn hp1 hp2 hm1 hm2
  rw [filter_eq_filterSpec]
  have hget : Values.Get [("name", ["dc1/prod"])] "name" = "dc1/prod" := by decide
  have hsplit : (stringsSplit "dc1/prod" '/').length = 2 := by decide
  have hne : ("dc1/prod" : String) ≠ "" := by decide
  simp [filterSpec, hn, hget, hsplit, hne, hp1, hp2, hm1, hm2]

/-- C1, at the sample store: the clusters of paths `dc1/prod` and `dc2/prod`
filtered by `name=dc1/prod` give exactly the cluster of ID 1. -/
theorem C1_filter_refines_reference_witness :
    ClusterHandler.filter sampleEnv sampleHandler sampleCtx
      [sampleCluster "1" "dc1", sampleCluster "2" "dc2"]
      = ([sampleCluster "1" "dc1"], none) :=
  C1_filter_refines_reference.2 sampleEnv sampleHandler sampleCtx.Params
    (sampleCluster "1" "dc1") (sampleCluster "2" "dc2") rfl (by decide) (by decide)
    (by decide) (by decide)

/-- C8: structural filtering is idempotent: for every list and request,
applying `filter` to its own result returns that result unchanged, again
without an error; and a list of one element is left unchanged whatever the
name parameter is. -/
theorem C8_filter_idempotent (env : Env) (h : ClusterHandler) (ctx : Context) :
    (∀ list : List model.Cluster,
      ClusterHandler.filter env h ctx (ClusterHandler.filter env h ctx list).1
        = ClusterHandler.filter env h ctx list)
    ∧ (∀ m : model.Cluster, ClusterHandler.filter env h ctx [m] = ([m], none)) := by
  constructor
  · intro list
    simp only [filter_eq_filterSpec]
    congr 1
    by_cases hc : list.length < 2 ∨ ctx.Query.Get env.NameParam = ""
        ∨ (stringsSplit (ctx.Query.Get env.NameParam) '/').length < 2
    · have h1 : filterSpec env h ctx list = list := by simp only [filterSpec, if_pos hc]
      rw [h1, h1]
    · have h1 : filterSpec env h ctx list = list.filter
          (fun m => env.PathMatchRoot h (env.Path h.Collector m)
            (ctx.Query.Get env.NameParam)) := by
        simp only [filterSpec, if_neg hc]
      rw [h1]
      unfold filterSpec
      split
      · rfl
      · rw [List.filter_filter]
        simp
  · intro m
    simp [ClusterHandler.filter]

/-- C10: `getScriptArgs a [v1, .., vn]` has length `2n`, its element `2i` is
`"--"` followed by `a` and its element `2i+1` is the value of index `i` (and
there is no element past the values); it is empty for no values, and
`getScriptArgs "firstboot" [boot1, boot2]` is
`["--firstboot", boot1, "--firstboot", boot2]`. -/
theorem C10_getScriptArgs_interleaves (a : String) (vs : List String) :
    (getScriptArgs a vs).length = 2 * vs.length
    ∧ (∀ i : Nat,
        (getScriptArgs a vs)[2 * i]? = (vs[i]?).map (fun _ => "--" ++ a)
        ∧ (getScriptArgs a vs)[2 * i + 1]? = vs[i]?)
    ∧ getScriptArgs a [] = []
    ∧ (∀ boot1 boot2 : String,
        getScriptArgs "firstboot" [boot1, boot2]
          = ["--firstboot", boot1, "--firstboot", boot2]) := by
  refine ⟨?_, ?_, rfl, ?_⟩
  · induction vs with
    | nil => rfl
    | cons v vs ih => rw [getScriptArgs_cons]; simp [ih]; omega
  · induction vs with
    | nil => intro i; simp [getScriptArgs]
    | cons v vs ih =>
      intro i
      rw [getScriptArgs_cons]
      cases i with
      | zero => simp
      | succ j =>
        have e1 : 2 * (j + 1) = (2 * j) + 1 + 1 := by omega
        rw [e1]
        simpa using ih j
  · intro boot1 boot2
    rw [getScriptArgs_cons, getScriptArgs_cons]
    have : ("--" : String) ++ "firstboot" = "--firstboot" := by decide
    simp [getScriptArgs, this]

/-- C2: on every prepared request that is not a watch, `List` queries the
store exactly once, with the options of the caller in which the predicate is
the conjunction `And(P, variant == "")` when the caller supplied a predicate
`P` and the baseline `variant == ""` alone when there is none; the other
options are those of the caller. -/
theorem C2_List_conjoins_baseline (env : Env) (h : ClusterHandler) (ctx : Context)
    (hp : (env.Prepare h ctx).1 = StatusOK)
    (hw : (env.Prepare h ctx).2.WatchRequest = false) :
    (∃ options : ListOptions,
      (ClusterHandler.List env h ctx).db = [DbCall.List options]
      ∧ (∀ P : Predicate,
          (env.ListOptions (env.Prepare h ctx).2 ctx).Predicate = some P →
          options.Predicate
            = some (Predicate.And [P, Predicate.Eq "variant" (Value.str "")]))
      ∧ ((env.ListOptions (env.Prepare h ctx).2 ctx).Predicate = none →
          options.Predicate = some (Predicate.Eq "variant" (Value.str "")))
      ∧ options.Detail = (env.ListOptions (env.Prepare h ctx).2 ctx).Detail) := by
  refine ⟨baselineOptions (env.ListOptions (env.Prepare h ctx).2 ctx), ?_, ?_, ?_, rfl⟩
  · rw [List_prepared env h ctx hp hw]
    cases (env.Prepare h ctx).2.Collector.List
      (baselineOptions (env.ListOptions (env.Prepare h ctx).2 ctx)) <;> rfl
  · intro P hP
    simp [baselineOptions, hP]
  · intro hP
    simp [baselineOptions, hP]

/-- C2, at the sample request, whose caller supplies no predicate: the
store is queried once, with the baseline predicate. -/
theorem C2_List_conjoins_baseline_witness :
    ∃ options : ListOptions,
      (ClusterHandler.List sampleEnv sampleHandler sampleCtx).db = [DbCall.List options]
      ∧ options.Predicate = some (Predicate.Eq "variant" (Value.str "")) := by
  obtain ⟨options, hdb, _, hnone, _⟩ :=
    C2_List_conjoins_baseline sampleEnv sampleHandler sampleCtx rfl (by decide)
  exact ⟨options, hdb, hnone rfl⟩

/-- C3: on a prepared request, when the store's `Get` fails with an error
that is `model.NotFound` the response of `Get` is status 404 alone; it is
status 500 alone exactly when the store's `Get` fails with an error that is
not `NotFound`; and it is a 200 with a JSON body exactly when the store's
`Get` succeeds. -/
theorem C3_Get_statuses (env : Env) (h : ClusterHandler) (ctx : Context)
    (hp : (env.Prepare h ctx).1 = StatusOK) :
    (∀ err : GoError,
        (env.Prepare h ctx).2.Collector.Get (model.Cluster.withID (ctx.Param ClusterParam))
          = Except.error err →
        errorsIs err model.NotFound = true →
        (ClusterHandler.Get env h ctx).ctx = [CtxCall.Status StatusNotFound])
    ∧ ((ClusterHandler.Get env h ctx).ctx = [CtxCall.Status StatusInternalServerError]
        ↔ ∃ err : GoError,
            (env.Prepare h ctx).2.Collector.Get
                (model.Cluster.withID (ctx.Param ClusterParam)) = Except.error err
            ∧ errorsIs err model.NotFound = false)
    ∧ ((∃ body : Body, (ClusterHandler.Get env h ctx).ctx = [CtxCall.JSON StatusOK body])
        ↔ ∃ found : model.Cluster,
            (env.Prepare h ctx).2.Collector.Get
                (model.Cluster.withID (ctx.Param ClusterParam)) = Except.ok found) := by
  rw [Get_prepared env h ctx hp]
  cases hg : (env.Prepare h ctx).2.Collector.Get
      (model.Cluster.withID (ctx.Param ClusterParam)) with
  | error e =>
    by_cases hn : errorsIs e model.NotFound = true
    · simp [hn, StatusNotFound, StatusInternalServerError]
    · simp [hn, StatusNotFound, StatusInternalServerError]
  | ok found => simp

/-- C3, at the sample store: the cluster `9` is absent, the store fails with
an error that wraps `NotFound`, and the response is 404 alone. -/
theorem C3_Get_statuses_witness :
    (ClusterHandler.Get sampleEnv sampleHandler
        { Query := [], Params := [("cluster", "9")] }).ctx
      = [CtxCall.Status StatusNotFound] :=
  (C3_Get_statuses sampleEnv sampleHandler { Query := [], Params := [("cluster", "9")] }
    rfl).1 { chain := ["get failed", model.NotFound] } rfl (by decide)

/-- C4: on a request that is not a watch, `List` writes a 200 JSON body if
and only if `Prepare` returns 200 and the store's `List` and `filter` return
no error; `filter` never returns one.  When `Prepare` returns a status other
than 200 the response is exactly that status and the store is not queried.
When the store's `List` returns an error the response is status 500 alone:
no representation is written. -/
theorem C4_List_all_or_nothing (env : Env) (h : ClusterHandler) (ctx : Context)
    (hw : (env.Prepare h ctx).2.WatchRequest = false) :
    ((∃ body : Body, CtxCall.JSON StatusOK body ∈ (ClusterHandler.List env h ctx).ctx)
        ↔ ((env.Prepare h ctx).1 = StatusOK
          ∧ ∃ list : List model.Cluster,
              (env.Prepare h ctx).2.Collector.List
                (baselineOptions (env.ListOptions (env.Prepare h ctx).2 ctx)) = Except.ok list
              ∧ (ClusterHandler.filter env (env.Prepare h ctx).2 ctx list).2 = none))
    ∧ (∀ list : List model.Cluster,
        (ClusterHandler.filter env (env.Prepare h ctx).2 ctx list).2 = none)
    ∧ ((env.Prepare h ctx).1 ≠ StatusOK →
        (ClusterHandler.List env h ctx).ctx = [CtxCall.Status (env.Prepare h ctx).1]
        ∧ (ClusterHandler.List env h ctx).db = []
        ∧ (ClusterHandler.List env h ctx).watch = [])
    ∧ (∀ err : GoError,
        (env.Prepare h ctx).1 = StatusOK →
        (env.Prepare h ctx).2.Collector.List
          (baselineOptions (env.ListOptions (env.Prepare h ctx).2 ctx)) = Except.error err →
        (ClusterHandler.List env h ctx).ctx = [CtxCall.Status StatusInternalServerError]) := by
  refine ⟨?_, ?_, ?_, ?_⟩
  · by_cases hp : (env.Prepare h ctx).1 = StatusOK
    · rw [List_prepared env h ctx hp hw]
      cases hl : (env.Prepare h ctx).2.Collector.List
          (baselineOptions (env.ListOptions (env.Prepare h ctx).2 ctx)) with
      | error e => simp [hp]
      | ok list => simp [hp, filter_eq_filterSpec]
    · rw [List_refused env h ctx hp]
      simp [hp]
  · intro list
    rw [filter_eq_filterSpec]
  · intro hp
    rw [List_refused env h ctx hp]
    exact ⟨rfl, rfl, rfl⟩
  · intro err hp hl
    rw [List_prepared env h ctx hp hw, hl]

/-- C4, at the sample store: a request at detail 99 makes the store fail,
and the response is status 500 alone. -/
theorem C4_List_all_or_nothing_witness :
    (ClusterHandler.List sampleEnv { sampleHandler with Detail := 99 } sampleCtx).ctx
      = [CtxCall.Status StatusInternalServerError] :=
  (C4_List_all_or_nothing sampleEnv { sampleHandler with Detail := 99 } sampleCtx
    (by decide)).2.2.2 { chain := ["connection lost"] } rfl rfl

/-- C5: what `Cluster.With` does on every model: `Folder`, `Networks`,
`Datastores`, `Hosts`, `DasEnabled`, `DasVms`, `DrsEnabled` and `DrsBehavior`
are those of the model, and `DrsVms` is the `DasVms` of the model; on the
model `drsCluster`, whose `DasVms` is empty and whose `DrsVms` holds `vm-7`,
the `DrsVms` of the resource is empty and differs from that of the model. -/
theorem C5_With_DrsVms_from_DasVms :
    (∀ (env : Env) (r : Cluster) (m : model.Cluster),
      (Cluster.With env r m).Folder = m.Folder
      ∧ (Cluster.With env r m).Networks = m.Networks
      ∧ (Cluster.With env r m).Datastores = m.Datastores
      ∧ (Cluster.With env r m).Hosts = m.Hosts
      ∧ (Cluster.With env r m).DasEnabled = m.DasEnabled
      ∧ (Cluster.With env r m).DasVms = m.DasVms
      ∧ (Cluster.With env r m).DrsEnabled = m.DrsEnabled
      ∧ (Cluster.With env r m).DrsBehavior = m.DrsBehavior
      ∧ (Cluster.With env r m).DrsVms = m.DasVms)
    ∧ drsCluster.DrsVms = [{ Kind := "VM", ID := "vm-7" }]
    ∧ (Cluster.With sampleEnv Cluster.zero drsCluster).DrsVms = []
    ∧ (Cluster.With sampleEnv Cluster.zero drsCluster).DrsVms ≠ drsCluster.DrsVms := by
  refine ⟨?_, rfl, rfl, ?_⟩
  · intro env r m
    exact ⟨rfl, rfl, rfl, rfl, rfl, rfl, rfl, rfl, rfl⟩
  · decide

/-- C6: when the store holds the cluster asked for, `Get` on a prepared
request responds 200 with the whole `Cluster` resource built by `With`,
`Link` and the path, whatever the detail of the handler is (the level of
`Get` is `MaxDetail`, taken to be other than 0); with a `Resource.With` that
sets the ID from the model, its self link is `base.Link` on `ClusterRoot`
with the provider parameter bound to the UID of the provider and the cluster
parameter bound to the ID of the entity, so the same provider UID and entity
ID give the same link. -/
theorem C6_Get_full_detail_link (env : Env) (h : ClusterHandler) (ctx : Context)
    (found : model.Cluster)
    (hp : (env.Prepare h ctx).1 = StatusOK)
    (hmax : env.MaxDetail ≠ 0)
    (hid : ∀ (r : Resource) (b : model.Base), (env.ResourceWith r b).ID = b.ID)
    (hget : (env.Prepare h ctx).2.Collector.Get
      (model.Cluster.withID (ctx.Param ClusterParam)) = Except.ok found) :
    (ClusterHandler.Get env h ctx).ctx
        = [CtxCall.JSON StatusOK (Body.one (Content.cluster
            (resourceOf env (env.Prepare h ctx).2.Provider
              (env.Prepare h ctx).2.Collector found)))]
    ∧ (∀ (p : api.Provider) (db : DB) (m : model.Cluster),
        (resourceOf env p db m).Resource.SelfLink
          = env.Link (ClusterRoot env) [(env.ProviderParam, p.UID), (ClusterParam, m.Base.ID)]
        ∧ (resourceOf env p db m).Resource.ID = m.Base.ID
        ∧ (resourceOf env p db m).Resource.Path = env.Path db m
        ∧ (resourceOf env p db m).Networks = m.Networks
        ∧ (resourceOf env p db m).Datastores = m.Datastores
        ∧ (resourceOf env p db m).Hosts = m.Hosts
        ∧ (resourceOf env p db m).DasVms = m.DasVms)
    ∧ (∀ (p1 p2 : api.Provider) (db1 db2 : DB) (m1 m2 : model.Cluster),
        p1.UID = p2.UID → m1.Base.ID = m2.Base.ID →
        (resourceOf env p1 db1 m1).Resource.SelfLink
          = (resourceOf env p2 db2 m2).Resource.SelfLink) := by
  have hlink : ∀ (p : api.Provider) (db : DB) (m : model.Cluster),
      (resourceOf env p db m).Resource.SelfLink
        = env.Link (ClusterRoot env)
            [(env.ProviderParam, p.UID), (ClusterParam, m.Base.ID)] := by
    intro p db m
    simp [resourceOf, Cluster.Link, Cluster.With, hid]
  refine ⟨?_, ?_, ?_⟩
  · rw [Get_prepared env h ctx hp, hget]
    simp [Cluster.Content, hmax]
  · intro p db m
    refine ⟨hlink p db m, ?_, rfl, rfl, rfl, rfl, rfl⟩
    simp [resourceOf, Cluster.Link, Cluster.With, hid]
  · intro p1 p2 db1 db2 m1 m2 hu hi
    rw [hlink, hlink, hu, hi]

/-- C6, at the sample store: `Get` of the cluster `1` responds 200 with the
whole resource of the stored cluster. -/
theorem C6_Get_full_detail_link_witness :
    (ClusterHandler.Get sampleEnv sampleHandler sampleCtx).ctx
      = [CtxCall.JSON StatusOK (Body.one (Content.cluster
          (resourceOf sampleEnv sampleHandler.Provider sampleDB (sampleCluster "1" "dc1"))))] :=
  (C6_Get_full_detail_link sampleEnv sampleHandler sampleCtx (sampleCluster "1" "dc1")
    rfl (by decide) (fun _ _ => rfl) rfl).1

/-- C7: `Content(0)` of a cluster resource is its embedded `Resource` alone,
`Content(d)` for every other `d`, negative ones included, is the whole
resource; and on a prepared request that is not a watch, when the store
returns a list, `List` responds with `Content(h.Detail)` of the resource of
each element that `filter` keeps, in order, which at detail 0 is the bare
`Resource` of each. -/
theorem C7_Content_by_detail (r : Cluster) :
    Cluster.Content r 0 = Content.resource r.Resource
    ∧ (∀ d : Int, d ≠ 0 → Cluster.Content r d = Content.cluster r)
    ∧ (∀ (env : Env) (h : ClusterHandler) (ctx : Context) (list : List model.Cluster),
        (env.Prepare h ctx).1 = StatusOK →
        (env.Prepare h ctx).2.WatchRequest = false →
        (env.Prepare h ctx).2.Collector.List
          (baselineOptions (env.ListOptions (env.Prepare h ctx).2 ctx)) = Except.ok list →
        (ClusterHandler.List env h ctx).ctx
            = [CtxCall.JSON StatusOK (Body.many
                ((ClusterHandler.filter env (env.Prepare h ctx).2 ctx list).1.map
                  (fun m => Cluster.Content
                    (resourceOf env (env.Prepare h ctx).2.Provider
                      (env.Prepare h ctx).2.Collector m)
                    (env.Prepare h ctx).2.Detail)))]
        ∧ ((env.Prepare h ctx).2.Detail = 0 →
            (ClusterHandler.List env h ctx).ctx
              = [CtxCall.JSON StatusOK (Body.many
                  ((ClusterHandler.filter env (env.Prepare h ctx).2 ctx list).1.map
                    (fun m => Content.resource
                      (resourceOf env (env.Prepare h ctx).2.Provider
                        (env.Prepare h ctx).2.Collector m).Resource)))])) := by
  refine ⟨by simp [Cluster.Content], ?_, ?_⟩
  · intro d hd
    simp [Cluster.Content, hd]
  · intro env h ctx list hp hw hl
    have hlist : (ClusterHandler.List env h ctx).ctx
        = [CtxCall.JSON StatusOK (Body.many
            ((ClusterHandler.filter env (env.Prepare h ctx).2 ctx list).1.map
              (fun m => Cluster.Content
                (resourceOf env (env.Prepare h ctx).2.Provider
                  (env.Prepare h ctx).2.Collector m)
                (env.Prepare h ctx).2.Detail)))] := by
      rw [List_prepared env h ctx hp hw, hl, filter_eq_filterSpec]
    refine ⟨hlist, ?_⟩
    intro hd
    rw [hlist, hd]
    simp [Cluster.Content]

/-- C7, at the sample store: a list without a name filter at detail 0
responds with the bare `Resource` of both clusters. -/
theorem C7_Content_by_detail_witness :
    (ClusterHandler.List sampleEnv sampleHandler { Query := [], Params := [] }).ctx
      = [CtxCall.JSON StatusOK (Body.many
          [Content.resource
            (resourceOf sampleEnv sampleHandler.Provider sampleDB
              (sampleCluster "1" "dc1")).Resource,
           Content.resource
            (resourceOf sampleEnv sampleHandler.Provider sampleDB
              (sampleCluster "2" "dc2")).Resource])] :=
  ((C7_Content_by_detail Cluster.zero).2.2 sampleEnv sampleHandler
    { Query := [], Params := [] } [sampleCluster "1" "dc1", sampleCluster "2" "dc2"]
    rfl (by decide) rfl).2 rfl

/-- C9, as stated, fails: on the sample watch request `List` queries no
store and calls `Watch` once, and the builder it passes produces a
representation for a cluster whose variant is `ComputeResource`. -/
theorem C9_watch_builder_keeps_variant :
    variantCluster.Base.Variant ≠ ""
    ∧ (ClusterHandler.List sampleEnv sampleHandler sampleWatchCtx).db = []
    ∧ ∃ call : WatchCall,
        (ClusterHandler.List sampleEnv sampleHandler sampleWatchCtx).watch = [call]
        ∧ (call.builder variantCluster).isSome = true := by
  refine ⟨by decide, rfl, ?_⟩
  exact ⟨_, rfl, rfl⟩

/-- C9, amended: in the watch branch of `List` the store is not queried and
`Watch` is called once, with the empty `model.Cluster` and a builder that
produces, for every model cluster whatever its variant, the whole resource
built by `With`, `Link` and the path; the response is nothing, or status 500
when `Watch` returns an error; and the options of the caller play no part:
with any other `ListOptions` the handler does the same. -/
theorem C9_watch_builds_every_cluster (env : Env) (h : ClusterHandler) (ctx : Context)
    (hp : (env.Prepare h ctx).1 = StatusOK)
    (hw : (env.Prepare h ctx).2.WatchRequest = true) :
    (ClusterHandler.List env h ctx).db = []
    ∧ (∃ call : WatchCall,
        (ClusterHandler.List env h ctx).watch = [call]
        ∧ call.m = model.Cluster.zero
        ∧ (∀ m : model.Cluster,
            call.builder m
              = some (resourceOf env (env.Prepare h ctx).2.Provider
                  (env.Prepare h ctx).2.Collector m))
        ∧ (ClusterHandler.List env h ctx).ctx
            = (match env.Watch (env.Prepare h ctx).2 ctx (env.Prepare h ctx).2.Collector call with
              | some _ => [CtxCall.Status StatusInternalServerError]
              | none => []))
    ∧ (∀ f : ClusterHandler → Context → ListOptions,
        ClusterHandler.List { env with ListOptions := f } h ctx
          = ClusterHandler.List env h ctx) := by
  refine ⟨?_, ?_, ?_⟩
  · rw [List_watch env h ctx hp hw, watch_trace]
  · rw [List_watch env h ctx hp hw, watch_trace]
    exact ⟨watchCallOf env (env.Prepare h ctx).2, rfl, rfl, fun m => rfl, rfl⟩
  · intro f
    rw [List_watch env h ctx hp hw, List_watch { env with ListOptions := f } h ctx hp hw]
    rfl

/-- C9 amended, at the sample watch request: the builder passed to `Watch`
produces the whole resource of the cluster of variant `ComputeResource`. -/
theorem C9_watch_builds_every_cluster_witness :
    ∃ call : WatchCall,
      (ClusterHandler.List sampleEnv sampleHandler sampleWatchCtx).watch = [call]
      ∧ call.builder variantCluster
          = some (resourceOf sampleEnv sampleHandler.Provider sampleDB variantCluster) := by
  obtain ⟨call, hcall, _, hb, _⟩ :=
    (C9_watch_builds_every_cluster sampleEnv sampleHandler sampleWatchCtx rfl (by decide)).2.1
  exact ⟨call, hcall, hb variantCluster⟩
